import Mathlib

/-!
Verification of the PR babysitting watcher `gh_pr_watch.py`.

The Python module normalizes a pull request's CI and review activity into a
snapshot and a recommended action list.  The definitions below are a shallow
embedding of its pure decision core: check summarization, the review-item
trust filter and dedup pass, the merge-readiness predicate, the action
recommender, the retry budget tracker, the watch loop's adaptive backoff, and
argument validation.  I/O (the `gh` subprocess calls, the JSON state file)
is stripped; the data each call would return is passed in explicitly.

Strings are modelled with Lean's `String`, but the character-level operations
the script uses (`lower`, `upper`, `endswith`, substring `in`) are defined
here over `String.data` so that every definition evaluates by `decide`.
-/

/-- Python `s.lower()` (ASCII case mapping, which covers every literal the
script compares against). -/
def pyLower (s : String) : String := String.mk (s.data.map Char.toLower)

/-- Python `s.upper()` (ASCII case mapping). -/
def pyUpper (s : String) : String := String.mk (s.data.map Char.toUpper)

/-- Python `s.endswith(pat)`. -/
def pyEndsWith (s pat : String) : Bool := pat.data.isSuffixOf s.data

/-- Helper for substring search: does `p` occur contiguously in the second list? -/
def charsContain (p : List Char) : List Char → Bool
  | [] => p.isEmpty
  | c :: rest => p.isPrefixOf (c :: rest) || charsContain p rest

/-- Python `pat in s` (substring containment). -/
def pyContains (s pat : String) : Bool := charsContain pat.data s.data

/-- Python truthiness of a string: nonempty. -/
def pyTruthy (s : String) : Bool := s != ""

/-- `PENDING_CHECK_STATES` from the script. -/
def PENDING_CHECK_STATES : List String :=
  ["QUEUED", "IN_PROGRESS", "PENDING", "WAITING", "REQUESTED"]

/-- `REVIEW_BOT_LOGIN_KEYWORDS` from the script. -/
def REVIEW_BOT_LOGIN_KEYWORDS : List String := ["codex"]

/-- `TRUSTED_AUTHOR_ASSOCIATIONS` from the script. -/
def TRUSTED_AUTHOR_ASSOCIATIONS : List String := ["OWNER", "MEMBER", "COLLABORATOR"]

/-- `MERGE_BLOCKING_REVIEW_DECISIONS` from the script. -/
def MERGE_BLOCKING_REVIEW_DECISIONS : List String := ["REVIEW_REQUIRED", "CHANGES_REQUESTED"]

/-- `MERGE_CONFLICT_OR_BLOCKING_STATES` from the script. -/
def MERGE_CONFLICT_OR_BLOCKING_STATES : List String := ["BLOCKED", "DIRTY", "DRAFT", "UNKNOWN"]

/-- `GREEN_STATE_MAX_POLL_SECONDS = 60 * 60`. -/
def GREEN_STATE_MAX_POLL_SECONDS : Nat := 60 * 60

/-- One entry of `gh pr checks`: the fields `summarize_checks` reads
(`bucket` and `state`, both defaulted to `""` when missing). -/
structure Check where
  bucket : String
  state : String
deriving DecidableEq

/-- `is_pending_check`: bucket is `"pending"` (lower-cased) or the raw state
(upper-cased) is in the pending vocabulary. -/
def is_pending_check (check : Check) : Bool :=
  pyLower check.bucket == "pending" || decide (pyUpper check.state ∈ PENDING_CHECK_STATES)

/-- The summary record `summarize_checks` returns. -/
structure CheckSummary where
  pending_count : Nat
  failed_count : Nat
  passed_count : Nat
  all_terminal : Bool
deriving DecidableEq

/-- `summarize_checks`: one pass over the entries, counting pending / fail /
pass (independently — a single entry can hit more than one counter), with
`all_terminal := pending_count == 0`. -/
def summarize_checks (checks : List Check) : CheckSummary :=
  let counts := checks.foldl
    (fun (acc : Nat × Nat × Nat) check =>
      ((if is_pending_check check then acc.1 + 1 else acc.1),
       (if pyLower check.bucket == "fail" then acc.2.1 + 1 else acc.2.1),
       (if pyLower check.bucket == "pass" then acc.2.2 + 1 else acc.2.2)))
    (0, 0, 0)
  { pending_count := counts.1
    failed_count := counts.2.1
    passed_count := counts.2.2
    all_terminal := counts.1 == 0 }

/-- The PR fields `resolve_pr` produces that the decision core consults. -/
structure PR where
  head_sha : String
  state : String
  closed : Bool
  merged : Bool
  mergeable : String
  merge_state_status : String
  review_decision : String
deriving DecidableEq

/-- One entry of the failed-run list built by `failed_runs_from_workflow_runs`.
`run_id` is the raw `id` field of the workflow run; `none` models a missing
id and `some ""` an empty one (both refused by `retry_failed_now`). -/
structure FailedRun where
  run_id : Option String
  workflow_name : String
  status : String
  conclusion : String
  html_url : String
deriving DecidableEq

/-- The three review-item kinds produced by the normalizers. -/
inductive ReviewKind
  | issue_comment
  | review_comment
  | review
deriving DecidableEq

/-- The `kind` tag string each normalizer writes. -/
def kind_str : ReviewKind → String
  | .issue_comment => "issue_comment"
  | .review_comment => "review_comment"
  | .review => "review"

/-- A normalized review item (the fields the trust filter, dedup pass and
sort key consult; `body`, `path`, `line` and `url` are carried along by the
script but never branched on). -/
structure ReviewItem where
  kind : ReviewKind
  id : String
  author : String
  author_association : String
  created_at : String
deriving DecidableEq

/-- `is_bot_login`: nonempty and ends with `"[bot]"`. -/
def is_bot_login (login : String) : Bool :=
  pyTruthy login && pyEndsWith login "[bot]"

/-- `is_actionable_review_bot_login`: a bot login whose lower-cased form
contains one of the allow-listed keywords. -/
def is_actionable_review_bot_login (login : String) : Bool :=
  is_bot_login login &&
    REVIEW_BOT_LOGIN_KEYWORDS.any (fun keyword => pyContains (pyLower login) keyword)

/-- `is_trusted_human_review_author`: the author is nonempty and either equals
the (truthy) authenticated login or has a trusted author association. -/
def is_trusted_human_review_author (item : ReviewItem) (authenticated_login : String) : Bool :=
  if !(pyTruthy item.author) then false
  else if pyTruthy authenticated_login && item.author == authenticated_login then true
  else decide (pyUpper item.author_association ∈ TRUSTED_AUTHOR_ASSOCIATIONS)

/-- The author-based keep/drop decision inlined in `fetch_new_review_items`:
drop on missing author; bots must be actionable; humans must be trusted. -/
def trust_keep (item : ReviewItem) (authenticated_login : String) : Bool :=
  if !(pyTruthy item.author) then false
  else if is_bot_login item.author then is_actionable_review_bot_login item.author
  else is_trusted_human_review_author item authenticated_login

/-- The three persisted seen-id sets of the state file. -/
structure SeenState where
  seen_issue_comment_ids : Finset String
  seen_review_comment_ids : Finset String
  seen_review_ids : Finset String

/-- The seen-set a given kind deduplicates against. -/
def seen_for (st : SeenState) : ReviewKind → Finset String
  | .issue_comment => st.seen_issue_comment_ids
  | .review_comment => st.seen_review_comment_ids
  | .review => st.seen_review_ids

/-- Record an id in the seen-set of its kind. -/
def add_seen (st : SeenState) : ReviewKind → String → SeenState
  | .issue_comment, i => { st with seen_issue_comment_ids := insert i st.seen_issue_comment_ids }
  | .review_comment, i => { st with seen_review_comment_ids := insert i st.seen_review_comment_ids }
  | .review, i => { st with seen_review_ids := insert i st.seen_review_ids }

/-- The body of the per-item loop in `fetch_new_review_items`: skip on empty
id, on an untrusted author, or on an already-seen (kind, id); otherwise
append the item and mark its id seen. -/
def review_item_step (authenticated_login : String)
    (acc : List ReviewItem × SeenState) (item : ReviewItem) : List ReviewItem × SeenState :=
  if !(pyTruthy item.id) then acc
  else if !(trust_keep item authenticated_login) then acc
  else if item.id ∈ seen_for acc.2 item.kind then acc
  else (acc.1 ++ [item], add_seen acc.2 item.kind item.id)

/-- Lexicographic code-point comparison of strings (Python tuple-key order). -/
def charsLe : List Char → List Char → Bool
  | [], _ => true
  | _ :: _, [] => false
  | a :: as, b :: bs => if a = b then charsLe as bs else decide (a < b)

/-- `a <= b` on strings, as Python compares sort-key components. -/
def pyStrLe (a b : String) : Bool := charsLe a.data b.data

/-- The sort key `(created_at, kind, id)` of `fetch_new_review_items`,
compared lexicographically. -/
def review_item_le (a b : ReviewItem) : Bool :=
  if a.created_at == b.created_at then
    if kind_str a.kind == kind_str b.kind then pyStrLe a.id b.id
    else pyStrLe (kind_str a.kind) (kind_str b.kind)
  else pyStrLe a.created_at b.created_at

/-- `fetch_new_review_items`, with the gateway payloads already normalized
into `all_items` and the I/O stripped: returns the sorted new items and the
updated seen-sets. -/
def fetch_new_review_items (all_items : List ReviewItem) (st : SeenState)
    (authenticated_login : String) : List ReviewItem × SeenState :=
  let folded := all_items.foldl (review_item_step authenticated_login) ([], st)
  (List.insertionSort (fun a b => review_item_le a b = true) folded.1, folded.2)

/-- The `retries_by_sha` map of the state file, as an association list
(latest binding first, like a dict update). -/
structure RetryState where
  retries_by_sha : List (String × Int)
deriving DecidableEq

/-- `current_retry_count`: the entry for the SHA, defaulting to 0. -/
def current_retry_count (st : RetryState) (head_sha : String) : Int :=
  match st.retries_by_sha.lookup head_sha with
  | some v => v
  | none => 0

/-- `set_retry_count`: overwrite the entry for the SHA. -/
def set_retry_count (st : RetryState) (head_sha : String) (count : Int) : RetryState :=
  { st with retries_by_sha :=
      (head_sha, count) :: st.retries_by_sha.filter (fun p => !(p.1 == head_sha)) }

/-- `unique_actions`: keep the first occurrence of each action, in order. -/
def unique_actions (actions : List String) : List String :=
  (actions.foldl
    (fun (acc : List String × List String) action =>
      if action ∈ acc.2 then acc else (acc.1 ++ [action], action :: acc.2))
    ([], [])).1

/-- `is_pr_ready_to_merge`: the merge-readiness predicate. -/
def is_pr_ready_to_merge (pr : PR) (checks_summary : CheckSummary)
    (new_review_items : List ReviewItem) : Bool :=
  if pr.closed || pr.merged then false
  else if !checks_summary.all_terminal then false
  else if checks_summary.failed_count > 0 ∨ checks_summary.pending_count > 0 then false
  else if new_review_items ≠ [] then false
  else if pr.mergeable ≠ "MERGEABLE" then false
  else if pr.merge_state_status ∈ MERGE_CONFLICT_OR_BLOCKING_STATES then false
  else if pr.review_decision ∈ MERGE_BLOCKING_REVIEW_DECISIONS then false
  else true

/-- `recommend_actions`: the action-recommendation state machine. -/
def recommend_actions (pr : PR) (checks_summary : CheckSummary)
    (failed_runs : List FailedRun) (new_review_items : List ReviewItem)
    (retries_used max_retries : Int) : List String :=
  if pr.closed || pr.merged then
    unique_actions
      ((if new_review_items ≠ [] then ["process_review_comment"] else []) ++ ["stop_pr_closed"])
  else if is_pr_ready_to_merge pr checks_summary new_review_items then
    unique_actions ["stop_ready_to_merge"]
  else
    let review_actions := if new_review_items ≠ [] then ["process_review_comment"] else []
    let ci_actions :=
      if checks_summary.failed_count > 0 then
        if checks_summary.all_terminal = true ∧ retries_used ≥ max_retries then
          ["stop_exhausted_retries"]
        else
          "diagnose_ci_failure" ::
            (if checks_summary.all_terminal = true ∧ failed_runs ≠ [] ∧
                retries_used < max_retries then
              ["retry_failed_checks"]
            else [])
      else []
    let actions := review_actions ++ ci_actions
    unique_actions (if actions = [] then ["idle"] else actions)

/-- The outcome record of `retry_failed_now` (`reason` is always set on
return; `rerun_attempted`/`rerun_count`/`rerun_run_ids` describe reruns). -/
structure RetryResult where
  rerun_attempted : Bool
  rerun_count : Nat
  rerun_run_ids : List String
  reason : String
deriving DecidableEq

/-- The run ids the rerun loop actually submits: every failed run whose
`run_id` is neither missing nor empty. -/
def rerunnable_run_ids (failed_runs : List FailedRun) : List String :=
  failed_runs.filterMap (fun run =>
    match run.run_id with
    | none => none
    | some rid => if rid == "" then none else some rid)

/-- A refusal outcome of `retry_failed_now`. -/
def retry_refused (reason : String) : RetryResult :=
  { rerun_attempted := false, rerun_count := 0, rerun_run_ids := [], reason := reason }

/-- `retry_failed_now`, on an already-collected snapshot: the guard cascade,
then the rerun loop, then the counter increment (by 1) iff any run id was
submitted. Returns the outcome and the updated retry state. -/
def retry_failed_now (pr : PR) (checks_summary : CheckSummary)
    (failed_runs : List FailedRun) (max_retries : Int) (st : RetryState) :
    RetryResult × RetryState :=
  let retries_used := current_retry_count st pr.head_sha
  if pr.closed || pr.merged then (retry_refused "pr_closed", st)
  else if checks_summary.failed_count ≤ 0 then (retry_refused "no_failed_pr_checks", st)
  else if failed_runs = [] then (retry_refused "no_failed_runs", st)
  else if !checks_summary.all_terminal then (retry_refused "checks_still_pending", st)
  else if retries_used ≥ max_retries then (retry_refused "retry_budget_exhausted", st)
  else
    let rerun_ids := rerunnable_run_ids failed_runs
    if rerun_ids = [] then (retry_refused "failed_runs_missing_ids", st)
    else
      let new_count := current_retry_count st pr.head_sha + 1
      ({ rerun_attempted := true
         rerun_count := rerun_ids.length
         rerun_run_ids := rerun_ids
         reason := "rerun_triggered" },
       set_retry_count st pr.head_sha new_count)

/-- `is_ci_green` on a snapshot's check summary. -/
def is_ci_green (checks_summary : CheckSummary) : Bool :=
  checks_summary.all_terminal && checks_summary.failed_count == 0 &&
    checks_summary.pending_count == 0

/-- `snapshot_change_key`: the per-cycle change fingerprint. -/
structure ChangeKey where
  head_sha : String
  state : String
  mergeable : String
  merge_state_status : String
  review_decision : String
  passed_count : Nat
  failed_count : Nat
  pending_count : Nat
  review_item_keys : List (String × String)
  actions : List String
deriving DecidableEq

/-- Build the change fingerprint from the snapshot's parts. -/
def snapshot_change_key (pr : PR) (checks_summary : CheckSummary)
    (new_review_items : List ReviewItem) (actions : List String) : ChangeKey :=
  { head_sha := pr.head_sha
    state := pr.state
    mergeable := pr.mergeable
    merge_state_status := pr.merge_state_status
    review_decision := pr.review_decision
    passed_count := checks_summary.passed_count
    failed_count := checks_summary.failed_count
    pending_count := checks_summary.pending_count
    review_item_keys := new_review_items.map (fun item => (kind_str item.kind, item.id))
    actions := actions }

/-- The interval update at the bottom of each `run_watch` cycle:
reset to the base unless the snapshot is green and its fingerprint matches
the previous one, in which case double up to the ceiling. -/
def next_poll_seconds (base_poll_seconds prev_poll_seconds : Nat) (green : Bool)
    (last_change_key : Option ChangeKey) (current_change_key : ChangeKey) : Nat :=
  let changed : Bool := decide (¬ (last_change_key = some current_change_key))
  if !green then base_poll_seconds
  else if changed || decide (last_change_key = none) then base_poll_seconds
  else min (prev_poll_seconds * 2) GREEN_STATE_MAX_POLL_SECONDS

/-- The parsed argument record (the fields validation reads). -/
structure Args where
  poll_seconds : Int
  max_flaky_retries : Int
  once : Bool
  watch : Bool
  retry_failed_now : Bool
deriving DecidableEq

/-- `parse_args` after flag parsing: the validation cascade, then the
default-to-`--once` rule when no mode flag was given. -/
def parse_args (poll_seconds max_flaky_retries : Int)
    (once watch retry_now : Bool) : Except String Args :=
  if poll_seconds ≤ 0 then Except.error "--poll-seconds must be > 0"
  else if max_flaky_retries < 0 then Except.error "--max-flaky-retries must be >= 0"
  else if watch && retry_now then
    Except.error "--watch cannot be combined with --retry-failed-now"
  else if !once && !watch && !retry_now then
    Except.ok { poll_seconds := poll_seconds, max_flaky_retries := max_flaky_retries,
                once := true, watch := watch, retry_failed_now := retry_now }
  else
    Except.ok { poll_seconds := poll_seconds, max_flaky_retries := max_flaky_retries,
                once := once, watch := watch, retry_failed_now := retry_now }

/-! ## Theorems -/

/-- `is_pending_check` unfolded into its two clauses. -/
theorem is_pending_check_iff (check : Check) :
    is_pending_check check = true ↔
      (pyLower check.bucket = "pending" ∨ pyUpper check.state ∈ PENDING_CHECK_STATES) := by
  simp [is_pending_check]

/-- C8: in `summarize_checks`, a single entry counts as pending iff its
lower-cased bucket is `"pending"` or its upper-cased raw state is in
{QUEUED, IN_PROGRESS, PENDING, WAITING, REQUESTED}; the empty input yields
the all-zero summary with `all_terminal = true`; and `all_terminal` holds
exactly when `pending_count = 0`. -/
theorem summarize_checks_spec :
    (∀ check : Check, (summarize_checks [check]).pending_count = 1 ↔
      (pyLower check.bucket = "pending" ∨ pyUpper check.state ∈ PENDING_CHECK_STATES)) ∧
    summarize_checks [] =
      { pending_count := 0, failed_count := 0, passed_count := 0, all_terminal := true } ∧
    (∀ checks : List Check, (summarize_checks checks).all_terminal = true ↔
      (summarize_checks checks).pending_count = 0) := by
  refine ⟨?_, by rfl, ?_⟩
  · intro check
    have hc : (summarize_checks [check]).pending_count =
        (if is_pending_check check then 1 else 0) := by
      simp [summarize_checks]
    rw [hc, ← is_pending_check_iff check]
    by_cases h : is_pending_check check <;> simp [h]
  · intro checks
    simp [summarize_checks]

/-- C10: the three counters of `summarize_checks` are not a partition of the
input: a bucket-`fail` entry with raw state `QUEUED` is counted as both
pending and failed (and a bucket-`pass` entry with a pending raw state as
both pending and passed), so the counter sum can exceed the entry count. -/
theorem summarize_checks_counts_overlap :
    summarize_checks [{ bucket := "fail", state := "QUEUED" }] =
      { pending_count := 1, failed_count := 1, passed_count := 0, all_terminal := false } ∧
    summarize_checks [{ bucket := "pass", state := "PENDING" }] =
      { pending_count := 1, failed_count := 0, passed_count := 1, all_terminal := false } ∧
    (summarize_checks [{ bucket := "fail", state := "QUEUED" }]).pending_count +
      (summarize_checks [{ bucket := "fail", state := "QUEUED" }]).failed_count +
      (summarize_checks [{ bucket := "fail", state := "QUEUED" }]).passed_count >
      ([{ bucket := "fail", state := "QUEUED" }] : List Check).length := by
  refine ⟨by decide, by decide, by decide⟩

/-- Did argument validation reject the invocation? -/
def exceptFailed {ε α : Type} : Except ε α → Bool
  | .error _ => true
  | .ok _ => false

/-- C9 counterexample: `--once` combined with `--watch` passes validation
(the claim says every pair of mode flags is rejected). -/
theorem parse_args_once_watch_accepted :
    parse_args 30 3 true true false =
      Except.ok { poll_seconds := 30, max_flaky_retries := 3, once := true,
                  watch := true, retry_failed_now := false } := by
  rfl

/-- C9 (amended): validation fails exactly when the poll interval is ≤ 0,
the retry cap is < 0, or `--watch` is combined with `--retry-failed-now`;
no other mode-flag pair is rejected. -/
theorem parse_args_validation_spec (poll_seconds max_flaky_retries : Int)
    (once watch retry_now : Bool) :
    exceptFailed (parse_args poll_seconds max_flaky_retries once watch retry_now) = true ↔
      (poll_seconds ≤ 0 ∨ max_flaky_retries < 0 ∨ (watch = true ∧ retry_now = true)) := by
  unfold parse_args
  split_ifs with h1 h2 h3 h4
  · simp [exceptFailed, h1]
  · simp [exceptFailed, h2]
  · have h3' : watch = true ∧ retry_now = true := by
      exact Bool.and_eq_true _ _ |>.mp h3
    simp [exceptFailed, h3'.1, h3'.2]
  · constructor
    · intro hfalse
      simp [exceptFailed] at hfalse
    · intro hcon
      rcases hcon with hh | hh | hh
      · exact absurd hh h1
      · exact absurd hh h2
      · exact absurd (by simp [hh.1, hh.2] : (watch && retry_now) = true) h3
  · constructor
    · intro hfalse
      simp [exceptFailed] at hfalse
    · intro hcon
      rcases hcon with hh | hh | hh
      · exact absurd hh h1
      · exact absurd hh h2
      · exact absurd (by simp [hh.1, hh.2] : (watch && retry_now) = true) h3

/-- C7: the trust filter keeps an item iff its author is nonempty and either
it is a `[bot]` login containing an allow-listed keyword (case-insensitively),
or it is a non-bot login that equals the authenticated login or carries a
trusted author association; a missing author is always dropped. -/
theorem trust_filter_spec (item : ReviewItem) (authenticated_login : String) :
    trust_keep item authenticated_login = true ↔
      (item.author ≠ "" ∧
        ((pyEndsWith item.author "[bot]" = true ∧
            ∃ keyword ∈ REVIEW_BOT_LOGIN_KEYWORDS,
              pyContains (pyLower item.author) keyword = true) ∨
         (pyEndsWith item.author "[bot]" = false ∧
            (item.author = authenticated_login ∨
             pyUpper item.author_association ∈ TRUSTED_AUTHOR_ASSOCIATIONS)))) := by
  by_cases ha : item.author = ""
  · simp [trust_keep, pyTruthy, ha]
  · by_cases hb : pyEndsWith item.author "[bot]" = true
    · simp [trust_keep, pyTruthy, ha, is_bot_login, is_actionable_review_bot_login, hb,
        List.any_eq_true]
    · have hb' : pyEndsWith item.author "[bot]" = false := by
        cases hcase : pyEndsWith item.author "[bot]" with
        | true => exact absurd hcase hb
        | false => rfl
      by_cases hauth : item.author = authenticated_login
      · have hne : authenticated_login ≠ "" := hauth ▸ ha
        have hb'' : pyEndsWith authenticated_login "[bot]" = false := hauth ▸ hb'
        simp [trust_keep, pyTruthy, ha, is_bot_login, hb', hb'',
          is_trusted_human_review_author, hauth, hne]
      · simp [trust_keep, pyTruthy, ha, is_bot_login, hb', is_trusted_human_review_author,
          hauth]

/-- `is_pr_ready_to_merge` unfolded into the conjunction of its clauses. -/
theorem is_pr_ready_to_merge_iff (pr : PR) (checks_summary : CheckSummary)
    (new_review_items : List ReviewItem) :
    is_pr_ready_to_merge pr checks_summary new_review_items = true ↔
      (pr.closed = false ∧ pr.merged = false ∧ checks_summary.all_terminal = true ∧
       checks_summary.failed_count = 0 ∧ checks_summary.pending_count = 0 ∧
       new_review_items = [] ∧ pr.mergeable = "MERGEABLE" ∧
       pr.merge_state_status ∉ MERGE_CONFLICT_OR_BLOCKING_STATES ∧
       pr.review_decision ∉ MERGE_BLOCKING_REVIEW_DECISIONS) := by
  constructor
  · intro h
    unfold is_pr_ready_to_merge at h
    split_ifs at h with h1 h2 h3 h4 h5 h6 h7
    simp_all
  · rintro ⟨r1, r2, r3, r4, r5, r6, r7, r8, r9⟩
    simp [is_pr_ready_to_merge, r1, r2, r3, r4, r5, r6, r7, r8, r9]

/-- C3: the merge-readiness predicate holds iff the PR is open, checks are
terminal with zero failed and zero pending, there are no new review items,
`mergeable = MERGEABLE`, the merge state is not blocking, and the review
decision is not blocking; and whenever it holds, `recommend_actions` returns
exactly `["stop_ready_to_merge"]`. -/
theorem is_pr_ready_to_merge_spec (pr : PR) (checks_summary : CheckSummary)
    (new_review_items : List ReviewItem) :
    (is_pr_ready_to_merge pr checks_summary new_review_items = true ↔
      (pr.closed = false ∧ pr.merged = false ∧ checks_summary.all_terminal = true ∧
       checks_summary.failed_count = 0 ∧ checks_summary.pending_count = 0 ∧
       new_review_items = [] ∧ pr.mergeable = "MERGEABLE" ∧
       pr.merge_state_status ∉ MERGE_CONFLICT_OR_BLOCKING_STATES ∧
       pr.review_decision ∉ MERGE_BLOCKING_REVIEW_DECISIONS)) ∧
    (∀ (failed_runs : List FailedRun) (retries_used max_retries : Int),
      is_pr_ready_to_merge pr checks_summary new_review_items = true →
      recommend_actions pr checks_summary failed_runs new_review_items retries_used
          max_retries = ["stop_ready_to_merge"]) := by
  refine ⟨is_pr_ready_to_merge_iff pr checks_summary new_review_items, ?_⟩
  intro failed_runs retries_used max_retries h
  have hr := (is_pr_ready_to_merge_iff pr checks_summary new_review_items).mp h
  unfold recommend_actions
  rw [hr.1, hr.2.1]
  simp [h, unique_actions]

/-- C3 witness: Scenario A — all checks passed, PR open and mergeable, no
review items: readiness holds and the recommendation is `stop_ready_to_merge`. -/
theorem is_pr_ready_to_merge_witness :
    is_pr_ready_to_merge
        { head_sha := "abc", state := "OPEN", closed := false, merged := false,
          mergeable := "MERGEABLE", merge_state_status := "CLEAN", review_decision := "" }
        { pending_count := 0, failed_count := 0, passed_count := 5, all_terminal := true }
        [] = true ∧
    recommend_actions
        { head_sha := "abc", state := "OPEN", closed := false, merged := false,
          mergeable := "MERGEABLE", merge_state_status := "CLEAN", review_decision := "" }
        { pending_count := 0, failed_count := 0, passed_count := 5, all_terminal := true }
        [] [] 0 3 = ["stop_ready_to_merge"] := by
  constructor
  · exact (is_pr_ready_to_merge_spec _ _ _).1.mpr (by decide)
  · exact (is_pr_ready_to_merge_spec _ _ _).2 [] 0 3 (by decide)

/-- C2: for a closed or merged PR the recommendation is exactly
`[process_review_comment, stop_pr_closed]` when new review items exist and
`[stop_pr_closed]` otherwise, regardless of every other input. -/
theorem recommend_actions_closed_spec (pr : PR) (checks_summary : CheckSummary)
    (failed_runs : List FailedRun) (new_review_items : List ReviewItem)
    (retries_used max_retries : Int)
    (h : pr.closed = true ∨ pr.merged = true) :
    recommend_actions pr checks_summary failed_runs new_review_items retries_used
        max_retries =
      if new_review_items = [] then ["stop_pr_closed"]
      else ["process_review_comment", "stop_pr_closed"] := by
  have hb : (pr.closed || pr.merged) = true := by
    rcases h with h | h <;> simp [h]
  unfold recommend_actions
  rw [hb]
  by_cases hn : new_review_items = []
  · simp only [hn, if_pos, if_true]
    decide
  · simp only [if_true, if_neg hn, ne_eq, hn, not_false_eq_true, if_pos]
    decide

/-- C2 witness: Scenario B — a closed PR with one new OWNER issue comment. -/
theorem recommend_actions_closed_witness :
    recommend_actions
        { head_sha := "abc", state := "CLOSED", closed := true, merged := false,
          mergeable := "", merge_state_status := "", review_decision := "" }
        { pending_count := 0, failed_count := 0, passed_count := 0, all_terminal := true }
        []
        [{ kind := .issue_comment, id := "1", author := "alice",
           author_association := "OWNER", created_at := "2024-01-01T00:00:00Z" }]
        0 3 = ["process_review_comment", "stop_pr_closed"] := by
  rw [recommend_actions_closed_spec _ _ _ _ _ _ (Or.inl rfl)]
  decide

/-- C6: the watch loop's interval update — with a green summary and an
unchanged fingerprint the next interval is exactly `min (2 × previous, 3600)`;
with a non-green summary, a changed fingerprint, or no previous fingerprint
it is the configured base; green means all-terminal, zero failed, zero
pending. -/
theorem next_poll_seconds_spec (base_poll prev_poll : Nat)
    (checks_summary : CheckSummary) (last_change_key : Option ChangeKey)
    (current_change_key : ChangeKey) :
    (is_ci_green checks_summary = true ↔
      (checks_summary.all_terminal = true ∧ checks_summary.failed_count = 0 ∧
       checks_summary.pending_count = 0)) ∧
    (is_ci_green checks_summary = true → last_change_key = some current_change_key →
      next_poll_seconds base_poll prev_poll (is_ci_green checks_summary) last_change_key
          current_change_key = min (2 * prev_poll) 3600) ∧
    ((is_ci_green checks_summary = false ∨ last_change_key ≠ some current_change_key) →
      next_poll_seconds base_poll prev_poll (is_ci_green checks_summary) last_change_key
          current_change_key = base_poll) := by
  refine ⟨by simp [is_ci_green, and_assoc], ?_, ?_⟩
  · intro hg hl
    simp [next_poll_seconds, hg, hl, GREEN_STATE_MAX_POLL_SECONDS, Nat.mul_comm]
  · intro h
    rcases h with h | h
    · simp [next_poll_seconds, h]
    · simp [next_poll_seconds, h]

/-- C6 witness: two consecutive green, unchanged cycles double 30 s to 60 s;
a changed fingerprint resets to the base. -/
theorem next_poll_seconds_witness :
    next_poll_seconds 30 30
        (is_ci_green { pending_count := 0, failed_count := 0, passed_count := 5,
                       all_terminal := true })
        (some { head_sha := "abc", state := "OPEN", mergeable := "MERGEABLE",
                merge_state_status := "CLEAN", review_decision := "",
                passed_count := 5, failed_count := 0, pending_count := 0,
                review_item_keys := [], actions := ["stop_ready_to_merge"] })
        { head_sha := "abc", state := "OPEN", mergeable := "MERGEABLE",
          merge_state_status := "CLEAN", review_decision := "",
          passed_count := 5, failed_count := 0, pending_count := 0,
          review_item_keys := [], actions := ["stop_ready_to_merge"] } = 60 ∧
    next_poll_seconds 30 60
        (is_ci_green { pending_count := 0, failed_count := 0, passed_count := 5,
                       all_terminal := true })
        none
        { head_sha := "abc", state := "OPEN", mergeable := "MERGEABLE",
          merge_state_status := "CLEAN", review_decision := "",
          passed_count := 5, failed_count := 0, pending_count := 0,
          review_item_keys := [], actions := ["stop_ready_to_merge"] } = 30 := by
  constructor
  · rw [(next_poll_seconds_spec 30 30 _ _ _).2.1 (by decide) rfl]
    norm_num
  · exact (next_poll_seconds_spec 30 60 _ _ _).2.2 (Or.inr (by simp))

/-- C1: for an open PR that is not ready to merge and has failed checks, the
recommender appends `stop_exhausted_retries` (and nothing further) when the
checks are terminal and the budget is spent, and otherwise appends
`diagnose_ci_failure`, plus `retry_failed_checks` exactly when the checks are
terminal, a failed run exists, and budget remains. -/
theorem recommend_actions_failed_checks_spec (pr : PR) (checks_summary : CheckSummary)
    (failed_runs : List FailedRun) (new_review_items : List ReviewItem)
    (retries_used max_retries : Int)
    (hclosed : pr.closed = false) (hmerged : pr.merged = false)
    (hready : is_pr_ready_to_merge pr checks_summary new_review_items = false)
    (hfail : 0 < checks_summary.failed_count) :
    recommend_actions pr checks_summary failed_runs new_review_items retries_used
        max_retries =
      (if new_review_items = [] then [] else ["process_review_comment"]) ++
      (if checks_summary.all_terminal = true ∧ retries_used ≥ max_retries then
        ["stop_exhausted_retries"]
      else
        "diagnose_ci_failure" ::
          (if checks_summary.all_terminal = true ∧ failed_runs ≠ [] ∧
              retries_used < max_retries then
            ["retry_failed_checks"]
          else [])) := by
  unfold recommend_actions
  rw [hclosed, hmerged, hready]
  rcases lt_or_ge retries_used max_retries with hbud | hbud
  · by_cases hn : new_review_items = [] <;>
      by_cases hterm : checks_summary.all_terminal = true <;>
      by_cases hruns : failed_runs = [] <;>
      simp [hn, hterm, hruns, hfail, hbud, hbud.not_le] <;>
      decide
  · by_cases hn : new_review_items = [] <;>
      by_cases hterm : checks_summary.all_terminal = true <;>
      by_cases hruns : failed_runs = [] <;>
      simp [hn, hterm, hruns, hfail, hbud, hbud.not_lt] <;>
      decide

/-- C1 witness: Scenario C (two failed checks, two failed runs, budget left)
recommends diagnose + retry; Scenario D (budget exhausted) recommends stop. -/
theorem recommend_actions_failed_checks_witness :
    recommend_actions
        { head_sha := "abc", state := "OPEN", closed := false, merged := false,
          mergeable := "MERGEABLE", merge_state_status := "CLEAN", review_decision := "" }
        { pending_count := 0, failed_count := 2, passed_count := 3, all_terminal := true }
        [{ run_id := some "101", workflow_name := "ci", status := "completed",
           conclusion := "failure", html_url := "" },
         { run_id := some "102", workflow_name := "lint", status := "completed",
           conclusion := "failure", html_url := "" }]
        [] 0 3 = ["diagnose_ci_failure", "retry_failed_checks"] ∧
    recommend_actions
        { head_sha := "abc", state := "OPEN", closed := false, merged := false,
          mergeable := "MERGEABLE", merge_state_status := "CLEAN", review_decision := "" }
        { pending_count := 0, failed_count := 2, passed_count := 3, all_terminal := true }
        [{ run_id := some "101", workflow_name := "ci", status := "completed",
           conclusion := "failure", html_url := "" },
         { run_id := some "102", workflow_name := "lint", status := "completed",
           conclusion := "failure", html_url := "" }]
        [] 3 3 = ["stop_exhausted_retries"] := by
  constructor
  · rw [recommend_actions_failed_checks_spec _ _ _ _ _ _ rfl rfl (by decide) (by decide)]
    decide
  · rw [recommend_actions_failed_checks_spec _ _ _ _ _ _ rfl rfl (by decide) (by decide)]
    decide

/-- The run-id filter is empty exactly when every failed run lacks an id. -/
theorem rerunnable_run_ids_eq_nil_iff (failed_runs : List FailedRun) :
    rerunnable_run_ids failed_runs = [] ↔
      ∀ run ∈ failed_runs, run.run_id = none ∨ run.run_id = some "" := by
  simp only [rerunnable_run_ids, List.filterMap_eq_nil_iff]
  apply forall_congr'
  intro run
  apply imp_congr_right
  intro _
  cases hid : run.run_id with
  | none => simp
  | some rid =>
    by_cases hrid : rid = "" <;> simp [hrid]

/-- Reading back the counter just written for a SHA. -/
theorem current_retry_count_set (st : RetryState) (sha : String) (count : Int) :
    current_retry_count (set_retry_count st sha count) sha = count := by
  simp [current_retry_count, set_retry_count, List.lookup]

/-- C5: `retry_failed_now` refuses with the specific reason code at each
guard of its cascade — `pr_closed`, `no_failed_pr_checks`, `no_failed_runs`,
`checks_still_pending`, `retry_budget_exhausted`, `failed_runs_missing_ids` —
leaving the retry state untouched and triggering no rerun; and when a rerun
is triggered, the counter for the head SHA increments by exactly 1 no matter
how many runs were rerun. -/
theorem retry_failed_now_spec (pr : PR) (checks_summary : CheckSummary)
    (failed_runs : List FailedRun) (max_retries : Int) (st : RetryState) :
    ((pr.closed = true ∨ pr.merged = true) →
      retry_failed_now pr checks_summary failed_runs max_retries st =
        (retry_refused "pr_closed", st)) ∧
    (pr.closed = false → pr.merged = false → checks_summary.failed_count = 0 →
      retry_failed_now pr checks_summary failed_runs max_retries st =
        (retry_refused "no_failed_pr_checks", st)) ∧
    (pr.closed = false → pr.merged = false → 0 < checks_summary.failed_count →
      failed_runs = [] →
      retry_failed_now pr checks_summary failed_runs max_retries st =
        (retry_refused "no_failed_runs", st)) ∧
    (pr.closed = false → pr.merged = false → 0 < checks_summary.failed_count →
      failed_runs ≠ [] → checks_summary.all_terminal = false →
      retry_failed_now pr checks_summary failed_runs max_retries st =
        (retry_refused "checks_still_pending", st)) ∧
    (pr.closed = false → pr.merged = false → 0 < checks_summary.failed_count →
      failed_runs ≠ [] → checks_summary.all_terminal = true →
      current_retry_count st pr.head_sha ≥ max_retries →
      retry_failed_now pr checks_summary failed_runs max_retries st =
        (retry_refused "retry_budget_exhausted", st)) ∧
    (pr.closed = false → pr.merged = false → 0 < checks_summary.failed_count →
      failed_runs ≠ [] → checks_summary.all_terminal = true →
      current_retry_count st pr.head_sha < max_retries →
      (∀ run ∈ failed_runs, run.run_id = none ∨ run.run_id = some "") →
      retry_failed_now pr checks_summary failed_runs max_retries st =
        (retry_refused "failed_runs_missing_ids", st)) ∧
    (pr.closed = false → pr.merged = false → 0 < checks_summary.failed_count →
      failed_runs ≠ [] → checks_summary.all_terminal = true →
      current_retry_count st pr.head_sha < max_retries →
      rerunnable_run_ids failed_runs ≠ [] →
      (retry_failed_now pr checks_summary failed_runs max_retries st).1.rerun_attempted
          = true ∧
      (retry_failed_now pr checks_summary failed_runs max_retries st).1.rerun_count =
        (rerunnable_run_ids failed_runs).length ∧
      current_retry_count
          (retry_failed_now pr checks_summary failed_runs max_retries st).2 pr.head_sha =
        current_retry_count st pr.head_sha + 1) := by
  refine ⟨?_, ?_, ?_, ?_, ?_, ?_, ?_⟩
  · intro h
    have hb : (pr.closed || pr.merged) = true := by
      rcases h with h | h <;> simp [h]
    simp [retry_failed_now, hb]
  · intro hclosed hmerged hf0
    simp [retry_failed_now, hclosed, hmerged, hf0]
  · intro hclosed hmerged hfail hruns
    simp [retry_failed_now, hclosed, hmerged, Nat.le_zero, hfail.ne', hruns]
  · intro hclosed hmerged hfail hruns hterm
    simp [retry_failed_now, hclosed, hmerged, Nat.le_zero, hfail.ne', hruns, hterm]
  · intro hclosed hmerged hfail hruns hterm hbud
    simp [retry_failed_now, hclosed, hmerged, Nat.le_zero, hfail.ne', hruns, hterm, hbud]
  · intro hclosed hmerged hfail hruns hterm hbud hmiss
    have hnb : ¬(current_retry_count st pr.head_sha ≥ max_retries) := not_le.mpr hbud
    have hnil := (rerunnable_run_ids_eq_nil_iff failed_runs).mpr hmiss
    simp [retry_failed_now, hclosed, hmerged, Nat.le_zero, hfail.ne', hruns, hterm, hnb,
      hnil]
  · intro hclosed hmerged hfail hruns hterm hbud hids
    have hnb : ¬(current_retry_count st pr.head_sha ≥ max_retries) := not_le.mpr hbud
    have heq : retry_failed_now pr checks_summary failed_runs max_retries st =
        ({ rerun_attempted := true,
           rerun_count := (rerunnable_run_ids failed_runs).length,
           rerun_run_ids := rerunnable_run_ids failed_runs,
           reason := "rerun_triggered" },
         set_retry_count st pr.head_sha (current_retry_count st pr.head_sha + 1)) := by
      simp [retry_failed_now, hclosed, hmerged, Nat.le_zero, hfail.ne', hruns, hterm, hnb,
        hids]
    rw [heq]
    exact ⟨rfl, rfl, current_retry_count_set st pr.head_sha _⟩

/-- C5 witness: with a single rerunnable failed run and an empty retry state
the rerun is triggered and the counter for the head SHA becomes 1. -/
theorem retry_failed_now_witness :
    (retry_failed_now
        { head_sha := "abc", state := "OPEN", closed := false, merged := false,
          mergeable := "MERGEABLE", merge_state_status := "CLEAN", review_decision := "" }
        { pending_count := 0, failed_count := 1, passed_count := 3, all_terminal := true }
        [{ run_id := some "101", workflow_name := "ci", status := "completed",
           conclusion := "failure", html_url := "" }]
        3 { retries_by_sha := [] }).1.rerun_attempted = true ∧
    (retry_failed_now
        { head_sha := "abc", state := "OPEN", closed := false, merged := false,
          mergeable := "MERGEABLE", merge_state_status := "CLEAN", review_decision := "" }
        { pending_count := 0, failed_count := 1, passed_count := 3, all_terminal := true }
        [{ run_id := some "101", workflow_name := "ci", status := "completed",
           conclusion := "failure", html_url := "" }]
        3 { retries_by_sha := [] }).1.rerun_count = 1 ∧
    current_retry_count
        (retry_failed_now
          { head_sha := "abc", state := "OPEN", closed := false, merged := false,
            mergeable := "MERGEABLE", merge_state_status := "CLEAN", review_decision := "" }
          { pending_count := 0, failed_count := 1, passed_count := 3, all_terminal := true }
          [{ run_id := some "101", workflow_name := "ci", status := "completed",
             conclusion := "failure", html_url := "" }]
          3 { retries_by_sha := [] }).2 "abc" = 1 := by
  have h := (retry_failed_now_spec
      { head_sha := "abc", state := "OPEN", closed := false, merged := false,
        mergeable := "MERGEABLE", merge_state_status := "CLEAN", review_decision := "" }
      { pending_count := 0, failed_count := 1, passed_count := 3, all_terminal := true }
      [{ run_id := some "101", workflow_name := "ci", status := "completed",
         conclusion := "failure", html_url := "" }]
      3 { retries_by_sha := [] }).2.2.2.2.2.2 rfl rfl (by decide) (by decide) rfl
      (by decide) (by decide)
  exact ⟨h.1, h.2.1, h.2.2⟩

/-- Adding an id for one kind never shrinks any kind's seen-set. -/
theorem seen_for_add_seen_subset (st : SeenState) (k' k : ReviewKind) (i : String) :
    seen_for st k ⊆ seen_for (add_seen st k' i) k := by
  cases k' <;> cases k <;>
    simp only [seen_for, add_seen] <;>
    first
      | exact Finset.Subset.refl _
      | exact Finset.subset_insert _ _

/-- The id just added is in its kind's seen-set. -/
theorem seen_for_add_seen_self (st : SeenState) (k : ReviewKind) (i : String) :
    i ∈ seen_for (add_seen st k i) k := by
  cases k <;> simp [seen_for, add_seen]

/-- One loop iteration never shrinks a seen-set. -/
theorem review_item_step_seen_monotone (authenticated_login : String)
    (acc : List ReviewItem × SeenState) (item : ReviewItem) (k : ReviewKind) :
    seen_for acc.2 k ⊆ seen_for (review_item_step authenticated_login acc item).2 k := by
  unfold review_item_step
  split_ifs <;>
    first
      | exact Finset.Subset.refl _
      | exact seen_for_add_seen_subset _ _ _ _

/-- The whole loop never shrinks a seen-set. -/
theorem foldl_step_seen_monotone (authenticated_login : String) (items : List ReviewItem) :
    ∀ (acc : List ReviewItem × SeenState) (k : ReviewKind),
      seen_for acc.2 k ⊆
        seen_for (items.foldl (review_item_step authenticated_login) acc).2 k := by
  induction items with
  | nil =>
    intro acc k
    simp
  | cons item rest ih =>
    intro acc k
    rw [List.foldl_cons]
    exact Finset.Subset.trans
      (review_item_step_seen_monotone authenticated_login acc item k)
      (ih (review_item_step authenticated_login acc item) k)

/-- An item whose (kind, id) is seen at loop entry is never accumulated. -/
theorem foldl_step_not_mem (authenticated_login : String) (items : List ReviewItem)
    (it : ReviewItem) :
    ∀ (acc : List ReviewItem × SeenState),
      it.id ∈ seen_for acc.2 it.kind → it ∉ acc.1 →
      it ∉ (items.foldl (review_item_step authenticated_login) acc).1 := by
  induction items with
  | nil =>
    intro acc _ h2
    simpa using h2
  | cons item rest ih =>
    intro acc h1 h2
    rw [List.foldl_cons]
    apply ih
    · exact review_item_step_seen_monotone authenticated_login acc item it.kind h1
    · unfold review_item_step
      split_ifs with hid htrust hseen
      · exact h2
      · exact h2
      · exact h2
      · intro hmem
        rcases List.mem_append.mp hmem with hmem' | hmem'
        · exact h2 hmem'
        · have heq : it = item := List.mem_singleton.mp hmem'
          subst heq
          exact hseen h1

/-- After the loop, every input item that passes the id and trust filters has
its id in the seen-set of its kind. -/
theorem foldl_step_covers (authenticated_login : String) (items : List ReviewItem) :
    ∀ (acc : List ReviewItem × SeenState) (it : ReviewItem), it ∈ items →
      pyTruthy it.id = true → trust_keep it authenticated_login = true →
      it.id ∈ seen_for (items.foldl (review_item_step authenticated_login) acc).2 it.kind := by
  induction items with
  | nil =>
    intro acc it h
    cases h
  | cons item rest ih =>
    intro acc it hmem hid htrust
    rw [List.foldl_cons]
    rcases List.mem_cons.mp hmem with heq | hmem'
    · subst heq
      apply foldl_step_seen_monotone authenticated_login rest
        (review_item_step authenticated_login acc it) it.kind
      unfold review_item_step
      split_ifs with h1 h2 h3
      · simp [hid] at h1
      · simp [htrust] at h2
      · exact h3
      · exact seen_for_add_seen_self _ _ _
    · exact ih (review_item_step authenticated_login acc item) it hmem' hid htrust

/-- If every filter-passing input item is already seen, the loop is a no-op. -/
theorem foldl_step_nop (authenticated_login : String) (items : List ReviewItem) :
    ∀ (acc : List ReviewItem × SeenState),
      (∀ it ∈ items, pyTruthy it.id = true → trust_keep it authenticated_login = true →
        it.id ∈ seen_for acc.2 it.kind) →
      items.foldl (review_item_step authenticated_login) acc = acc := by
  induction items with
  | nil =>
    intro acc _
    rfl
  | cons item rest ih =>
    intro acc hcov
    rw [List.foldl_cons]
    have hstep : review_item_step authenticated_login acc item = acc := by
      unfold review_item_step
      split_ifs with h1 h2 h3
      · rfl
      · rfl
      · rfl
      · exfalso
        simp only [Bool.not_eq_true, Bool.not_eq_false'] at h1 h2
        exact h3 (hcov item (List.mem_cons_self _ _) h1 h2)
    rw [hstep]
    exact ih acc (fun it hm => hcov it (List.mem_cons_of_mem _ hm))

/-- C4: normalization never resurfaces an already-seen (kind, id), only grows
the three seen-sets, and is idempotent: re-running it on the same inputs with
the updated state yields no new items. -/
theorem fetch_new_review_items_dedup_monotone (all_items : List ReviewItem)
    (st : SeenState) (authenticated_login : String) :
    (∀ it : ReviewItem, it.id ∈ seen_for st it.kind →
      it ∉ (fetch_new_review_items all_items st authenticated_login).1) ∧
    (∀ k : ReviewKind,
      seen_for st k ⊆
        seen_for (fetch_new_review_items all_items st authenticated_login).2 k) ∧
    (fetch_new_review_items all_items
        (fetch_new_review_items all_items st authenticated_login).2
        authenticated_login).1 = [] := by
  refine ⟨?_, ?_, ?_⟩
  · intro it hseen
    simp only [fetch_new_review_items]
    intro hmem
    have hperm := List.perm_insertionSort (fun a b => review_item_le a b = true)
      (all_items.foldl (review_item_step authenticated_login) ([], st)).1
    have hmem' : it ∈ (all_items.foldl (review_item_step authenticated_login) ([], st)).1 :=
      hperm.mem_iff.mp hmem
    exact foldl_step_not_mem authenticated_login all_items it ([], st) hseen
      (by simp) hmem'
  · intro k
    simp only [fetch_new_review_items]
    exact foldl_step_seen_monotone authenticated_login all_items ([], st) k
  · simp only [fetch_new_review_items]
    rw [foldl_step_nop authenticated_login all_items
      (([] : List ReviewItem),
        (all_items.foldl (review_item_step authenticated_login) ([], st)).2)
      (fun it hm hid htrust => foldl_step_covers authenticated_login all_items ([], st)
        it hm hid htrust)]
    rfl

/-- C4 witness: with id 7 already in the issue-comment seen-set, the item is
not resurfaced, the set is preserved, and a re-run yields nothing. -/
theorem fetch_new_review_items_witness :
    ({ kind := .issue_comment, id := "7", author := "alice",
       author_association := "OWNER", created_at := "t" } : ReviewItem) ∉
      (fetch_new_review_items
        [{ kind := .issue_comment, id := "7", author := "alice",
           author_association := "OWNER", created_at := "t" }]
        { seen_issue_comment_ids := {"7"}, seen_review_comment_ids := ∅,
          seen_review_ids := ∅ } "me").1 ∧
    ({"7"} : Finset String) ⊆
      seen_for
        (fetch_new_review_items
          [{ kind := .issue_comment, id := "7", author := "alice",
             author_association := "OWNER", created_at := "t" }]
          { seen_issue_comment_ids := {"7"}, seen_review_comment_ids := ∅,
            seen_review_ids := ∅ } "me").2 ReviewKind.issue_comment ∧
    (fetch_new_review_items
        [{ kind := .issue_comment, id := "7", author := "alice",
           author_association := "OWNER", created_at := "t" }]
        (fetch_new_review_items
          [{ kind := .issue_comment, id := "7", author := "alice",
             author_association := "OWNER", created_at := "t" }]
          { seen_issue_comment_ids := {"7"}, seen_review_comment_ids := ∅,
            seen_review_ids := ∅ } "me").2 "me").1 = [] := by
  refine ⟨?_, ?_, ?_⟩
  · exact (fetch_new_review_items_dedup_monotone _ _ _).1 _ (by decide)
  · exact (fetch_new_review_items_dedup_monotone
      [{ kind := .issue_comment, id := "7", author := "alice",
         author_association := "OWNER", created_at := "t" }]
      { seen_issue_comment_ids := {"7"}, seen_review_comment_ids := ∅,
        seen_review_ids := ∅ } "me").2.1 ReviewKind.issue_comment
  · exact (fetch_new_review_items_dedup_monotone _ _ _).2.2
